import Mathlib

/-!
Verification development for the HHF user-videos service
(src/hhfuservideos_main.py).

The Python source is shallowly embedded below.  External effects
(S3, Rekognition, SES, the local filesystem) are modelled by an
explicit environment record: each field records the answer the
outside world gives to the corresponding SDK call, and the embedded
worker is a pure function of that environment.  Strings are Lean
strings; the ffprobe duration (a Python float used only in order
comparisons) is modelled as a rational number.
-/

namespace HHF

/-! ### Configuration constants (source lines 55-77) -/

/-- NOTIFY_INTERNAL_EMAIL default value (source line 56). -/
def NOTIFY_INTERNAL_EMAIL : String := "Antoinemaxwell0@gmail.com"

/-- MIN_SECONDS (source line 67). -/
def MIN_SECONDS : ℚ := 15

/-- MAX_SECONDS (source line 68). -/
def MAX_SECONDS : ℚ := 240

/-- ALLOWED_CONTENT_TYPES (source lines 71-77). -/
def ALLOWED_CONTENT_TYPES : List String :=
  ["video/mp4", "video/quicktime", "video/x-matroska", "video/webm", "video/3gpp"]

/-! ### String helpers mirroring Python primitives

Python slicing s[:n] takes the first n characters and str.lower()
lowercases character-wise; both are modelled on the character list of
a Lean string so that length lemmas are immediate. -/

/-- Python s[:n] on a string. -/
def strTake (s : String) (n : Nat) : String := String.mk (s.data.take n)

/-- Python str.lower() on a string. -/
def strLower (s : String) : String := String.mk (s.data.map Char.toLower)

/-- Python str.strip() on a string (whitespace at both ends removed). -/
def strStrip (s : String) : String :=
  String.mk (((s.data.dropWhile Char.isWhitespace).reverse.dropWhile Char.isWhitespace).reverse)

theorem strTake_length (s : String) (n : Nat) : (strTake s n).length ≤ n := by
  show (s.data.take n).length ≤ n
  rw [List.length_take]
  exact Nat.min_le_left n s.data.length

theorem strLower_length (s : String) : (strLower s).length = s.length := by
  show (s.data.map Char.toLower).length = s.data.length
  exact List.length_map s.data Char.toLower

/-! ### Dictionaries as association lists

Python dicts preserve insertion order and overwrite in place on
repeated keys; dictInsert mirrors dict assignment d[k] = v. -/

/-- Python d[k] = v on an insertion-ordered dictionary. -/
def dictInsert (l : List (String × String)) (k v : String) : List (String × String) :=
  if l.any (fun p => p.1 = k) then
    l.map (fun p => if p.1 = k then (k, v) else p)
  else
    l ++ [(k, v)]

/-- Python d.get(k, dflt). -/
def dictGet (l : List (String × String)) (k dflt : String) : String :=
  match l.find? (fun p => p.1 = k) with
  | some p => p.2
  | none => dflt

theorem mem_dictInsert {l : List (String × String)} {k v : String} {e : String × String}
    (h : e ∈ dictInsert l k v) : e ∈ l ∨ e = (k, v) := by
  unfold dictInsert at h
  by_cases hc : l.any (fun p => p.1 = k)
  · simp only [hc, if_pos] at h
    rcases List.mem_map.mp h with ⟨p, hp, hpe⟩
    by_cases hpk : p.1 = k
    · right
      rw [if_pos hpk] at hpe
      exact hpe.symm
    · left
      rw [if_neg hpk] at hpe
      exact hpe ▸ hp
  · simp only [hc, if_neg] at h
    rcases List.mem_append.mp h with h | h
    · exact Or.inl h
    · exact Or.inr (by simpa using h)

theorem dictInsert_mem_self (l : List (String × String)) (k v : String) :
    ∃ w, (k, w) ∈ dictInsert l k v := by
  unfold dictInsert
  by_cases hc : l.any (fun p => p.1 = k)
  · simp only [hc, if_pos]
    rcases List.any_eq_true.mp hc with ⟨p, hp, hpk⟩
    exact ⟨v, List.mem_map.mpr ⟨p, hp, by simp [of_decide_eq_true hpk]⟩⟩
  · simp only [hc, if_neg]
    exact ⟨v, List.mem_append.mpr (Or.inr (by simp))⟩

theorem dictInsert_mem_keep {l : List (String × String)} {k' : String}
    (h : ∃ w, (k', w) ∈ l) (k v : String) : ∃ w, (k', w) ∈ dictInsert l k v := by
  rcases h with ⟨w, hw⟩
  unfold dictInsert
  by_cases hc : l.any (fun p => p.1 = k)
  · simp only [hc, if_pos]
    by_cases hk : k' = k
    · rcases List.any_eq_true.mp hc with ⟨p, hp, hpk⟩
      exact ⟨v, List.mem_map.mpr ⟨p, hp, by simp [of_decide_eq_true hpk, hk]⟩⟩
    · exact ⟨w, List.mem_map.mpr ⟨(k', w), hw, by simp [hk]⟩⟩
  · simp only [hc, if_neg]
    exact ⟨w, List.mem_append.mpr (Or.inl hw)⟩

/-! ### sanitize_metadata (source lines 177-186)

Values arriving as None are skipped (modelled as none); every kept
value has already gone through str(v) and is modelled as a string.
The key is truncated to 32 characters and lowercased, the value is
truncated to 1024 characters. -/

/-- sanitize_metadata (source lines 177-186). -/
def sanitize_metadata (meta : List (String × Option String)) : List (String × String) :=
  meta.foldl
    (fun clean kv =>
      match kv.2 with
      | none => clean
      | some v => dictInsert clean (strLower (strTake kv.1 32)) (strTake v 1024))
    []

/-! ### Moderation polling (source lines 325-337) -/

/-- One answer of rekognition.get_content_moderation: either a response
carrying JobStatus and ModerationLabels, or a raised exception. -/
inductive PollResp where
  | ok (status : String) (labels : List (String × ℚ))
  | exn
  deriving DecidableEq

/-- The break test of the polling loop: status in ("SUCCEEDED", "FAILED")
(source line 333). -/
def terminalStatus (s : String) : Bool := s = "SUCCEEDED" || s = "FAILED"

/-- The while-True polling loop (source lines 326-337), indexed by fuel:
some (status, labels) when the loop breaks within the given number of
iterations, none when it is still polling.  On a successful poll the
loop adopts the returned status and labels and breaks when the status
is terminal; on an exception it breaks keeping the previous ones. -/
def pollLoop (poll : Nat → PollResp) (status : String) (labels : List (String × ℚ)) :
    Nat → Nat → Option (String × List (String × ℚ))
  | _, 0 => none
  | i, fuel + 1 =>
    match poll i with
    | .exn => some (status, labels)
    | .ok s l => if terminalStatus s then some (s, l) else pollLoop poll s l (i + 1) fuel

/-! ### The environment of one moderate_video run -/

/-- Answers the outside world gives to the SDK calls of one
moderate_video run. -/
structure Env where
  /-- result of s3_object_exists(TEMP_BUCKET, temp_key) (source line 208) -/
  tempExists : Bool
  /-- whether s3_client.download_file succeeds (source line 224) -/
  downloadOk : Bool
  /-- result of get_video_duration on the downloaded file (source line 243) -/
  duration : Option ℚ
  /-- whether rekognition.start_content_moderation succeeds (source line 296) -/
  rekStartOk : Bool
  /-- answer of the k-th rekognition.get_content_moderation call (source line 331) -/
  poll : Nat → PollResp
  /-- whether s3_client.copy_object succeeds (source line 407) -/
  copyOk : Bool
  /-- whether the k-th s3_client.delete_object call of the run succeeds -/
  deleteOk : Nat → Bool
  /-- whether the k-th ses_client.send_email call of the run succeeds -/
  sesOk : Nat → Bool

/-- The same environment with the SES answers replaced: used to state
that notification failures never influence the moderation outcome. -/
def Env.withSes (env : Env) (f : Nat → Bool) : Env := { env with sesOk := f }

@[simp] theorem withSes_tempExists (env : Env) (f : Nat → Bool) :
    (env.withSes f).tempExists = env.tempExists := rfl
@[simp] theorem withSes_downloadOk (env : Env) (f : Nat → Bool) :
    (env.withSes f).downloadOk = env.downloadOk := rfl
@[simp] theorem withSes_duration (env : Env) (f : Nat → Bool) :
    (env.withSes f).duration = env.duration := rfl
@[simp] theorem withSes_rekStartOk (env : Env) (f : Nat → Bool) :
    (env.withSes f).rekStartOk = env.rekStartOk := rfl
@[simp] theorem withSes_poll (env : Env) (f : Nat → Bool) :
    (env.withSes f).poll = env.poll := rfl
@[simp] theorem withSes_copyOk (env : Env) (f : Nat → Bool) :
    (env.withSes f).copyOk = env.copyOk := rfl
@[simp] theorem withSes_deleteOk (env : Env) (f : Nat → Bool) :
    (env.withSes f).deleteOk = env.deleteOk := rfl
@[simp] theorem withSes_sesOk (env : Env) (f : Nat → Bool) :
    (env.withSes f).sesOk = f := rfl

/-! ### Email notification (source lines 137-156)

send_email_ses swallows ClientError, so a failed send only means the
message is not delivered; it never alters control flow.  The embedded
function returns the number of messages actually delivered.  Message
bodies are elided: SES delivery does not depend on them. -/

/-- send_email_ses (source lines 137-151): 1 when a message is
delivered, 0 when the address is empty or SES raises (swallowed). -/
def send_email_ses (ok : Bool) (to_address : String) : Nat :=
  if to_address = "" then 0 else if ok then 1 else 0

/-- notify_submitter_and_internal (source lines 153-156): emails the
submitter and, when distinct, the internal address; returns delivered
count. -/
def notify_submitter_and_internal (sesOk : Nat → Bool) (email : String) : Nat :=
  send_email_ses (sesOk 0) email +
    (if NOTIFY_INTERNAL_EMAIL ≠ "" ∧ strLower NOTIFY_INTERNAL_EMAIL ≠ strLower email then
      send_email_ses (sesOk 1) NOTIFY_INTERNAL_EMAIL
    else 0)

/-! ### The moderation worker moderate_video (source lines 191-457) -/

/-- The callback status posted at the end of a run: the status field of
the post_wp_callback payload (accepted, rejected, or error). -/
inductive Outcome where
  | accepted
  | rejected
  | error
  deriving DecidableEq

/-- Observable result of one completed moderate_video run. -/
structure RunResult where
  /-- status field of the terminal post_wp_callback payload -/
  outcome : Outcome
  /-- reason field of the terminal payload (empty on accept) -/
  reason : String
  /-- number of rekognition.start_content_moderation calls made -/
  rekStartCalls : Nat
  /-- whether the staging object is still in TEMP_BUCKET on return -/
  tempPresent : Bool
  /-- whether the bytes were copied into PERM_BUCKET -/
  permPublished : Bool
  /-- whether a local /tmp copy was materialized (download succeeded) -/
  tmpFileCreated : Bool
  /-- whether os.remove was invoked on the /tmp copy -/
  tmpRemoveCalled : Bool
  /-- number of s3_client.delete_object calls on the staging key -/
  deleteCalls : Nat
  /-- number of notify_submitter_and_internal calls -/
  notifyCalls : Nat
  /-- number of post_wp_callback calls -/
  callbackCalls : Nat
  /-- number of emails actually delivered by SES -/
  deliveries : Nat
  deriving DecidableEq

/-- moderate_video (source lines 191-457), as a pure function of the
environment.  fuel bounds how many poll iterations are unrolled; the
result is none when the run is still inside the polling loop after
that many iterations, and some of the observable run result when the
worker returns.  Branches appear in source order. -/
def moderate_video (env : Env) (temp_key filename : String)
    (metadata : List (String × String)) (content_type callback_url : String)
    (fuel : Nat) : Option RunResult :=
  let email := dictGet metadata "email" ""
  -- source line 208: if not s3_object_exists(TEMP_BUCKET, temp_key)
  if !env.tempExists then
    some { outcome := .error, reason := "temp_missing", rekStartCalls := 0,
           tempPresent := false, permPublished := false,
           tmpFileCreated := false, tmpRemoveCalled := false,
           deleteCalls := 0, notifyCalls := 1, callbackCalls := 1,
           deliveries := notify_submitter_and_internal env.sesOk email }
  -- source lines 223-240: download failure; best-effort delete of the staging object
  else if !env.downloadOk then
    some { outcome := .error, reason := "download_failed", rekStartCalls := 0,
           tempPresent := !env.deleteOk 0, permPublished := false,
           tmpFileCreated := false, tmpRemoveCalled := false,
           deleteCalls := 1, notifyCalls := 1, callbackCalls := 1,
           deliveries := notify_submitter_and_internal env.sesOk email }
  else
    match env.duration with
    -- source lines 244-267: duration unmeasurable, conservative reject
    | none =>
      some { outcome := .rejected, reason := "duration_unknown", rekStartCalls := 0,
             tempPresent := !env.deleteOk 0, permPublished := false,
             tmpFileCreated := true, tmpRemoveCalled := true,
             deleteCalls := 1, notifyCalls := 1, callbackCalls := 1,
             deliveries := notify_submitter_and_internal env.sesOk email }
    | some d =>
      -- source line 269: if duration < MIN_SECONDS or duration > MAX_SECONDS
      if d < MIN_SECONDS ∨ d > MAX_SECONDS then
        some { outcome := .rejected, reason := "duration_out_of_range", rekStartCalls := 0,
               tempPresent := !env.deleteOk 0, permPublished := false,
               tmpFileCreated := true, tmpRemoveCalled := true,
               deleteCalls := 1, notifyCalls := 1, callbackCalls := 1,
               deliveries := notify_submitter_and_internal env.sesOk email }
      -- source lines 295-323: start_content_moderation raised
      else if !env.rekStartOk then
        some { outcome := .rejected, reason := "rekognition_start_failed", rekStartCalls := 1,
               tempPresent := !env.deleteOk 0, permPublished := false,
               tmpFileCreated := true, tmpRemoveCalled := true,
               deleteCalls := 1, notifyCalls := 1, callbackCalls := 1,
               deliveries := notify_submitter_and_internal env.sesOk email }
      else
        -- source lines 325-337: polling loop; lines 341-345 remove the /tmp copy
        match pollLoop env.poll "IN_PROGRESS" [] 0 fuel with
        | none => none
        | some (st, labels) =>
          -- source line 347: if status != "SUCCEEDED"
          if st ≠ "SUCCEEDED" then
            some { outcome := .rejected, reason := "rekognition_failed", rekStartCalls := 1,
                   tempPresent := !env.deleteOk 0, permPublished := false,
                   tmpFileCreated := true, tmpRemoveCalled := true,
                   deleteCalls := 1, notifyCalls := 1, callbackCalls := 1,
                   deliveries := notify_submitter_and_internal env.sesOk email }
          -- source line 368: if moderation_labels
          else if labels ≠ [] then
            some { outcome := .rejected, reason := "rekognition_labels", rekStartCalls := 1,
                   tempPresent := !env.deleteOk 0, permPublished := false,
                   tmpFileCreated := true, tmpRemoveCalled := true,
                   deleteCalls := 1, notifyCalls := 1, callbackCalls := 1,
                   deliveries := notify_submitter_and_internal env.sesOk email }
          -- source lines 390-457: accept block, with its exception handler
          else if !env.copyOk then
            -- copy_object raised: handler deletes the staging object (best effort)
            some { outcome := .rejected, reason := "move_failed", rekStartCalls := 1,
                   tempPresent := !env.deleteOk 0, permPublished := false,
                   tmpFileCreated := true, tmpRemoveCalled := true,
                   deleteCalls := 1, notifyCalls := 1, callbackCalls := 1,
                   deliveries := notify_submitter_and_internal env.sesOk email }
          else if !env.deleteOk 0 then
            -- copy succeeded but the unguarded delete at source line 417 raised;
            -- the handler retries the delete (attempt 1) and posts a rejection
            some { outcome := .rejected, reason := "move_failed", rekStartCalls := 1,
                   tempPresent := !env.deleteOk 1, permPublished := true,
                   tmpFileCreated := true, tmpRemoveCalled := true,
                   deleteCalls := 2, notifyCalls := 1, callbackCalls := 1,
                   deliveries := notify_submitter_and_internal env.sesOk email }
          else
            -- source lines 390-437: published
            some { outcome := .accepted, reason := "", rekStartCalls := 1,
                   tempPresent := false, permPublished := true,
                   tmpFileCreated := true, tmpRemoveCalled := true,
                   deleteCalls := 1, notifyCalls := 1, callbackCalls := 1,
                   deliveries := notify_submitter_and_internal env.sesOk email }

/-! ### HTTP layer (source lines 462-595)

Request bodies are JSON objects; a field is modelled as none when
absent.  Python truthiness of the extracted strings reduces to an
emptiness test because each field goes through (value or "").strip().
The boolean consent field keeps its source conversion
bool(data.get("consent", True)). -/

/-- An HTTP response of the service: 200 JSON with status success,
400 with an error message, or 500. -/
inductive HttpResp where
  | ok (message : String)
  | badRequest (message : String)
  | serverError
  deriving DecidableEq

/-- Request body of POST /get-upload-url (source lines 464-478). -/
structure UploadSlotReq where
  email : Option String := none
  name : Option String := none
  igHandle : Option String := none
  videoType : Option String := none
  comments : Option String := none
  consent : Option Bool := none
  filename : Option String := none
  contentType : Option String := none
  entryId : Option String := none
  callbackUrl : Option String := none
  recaptchaToken : Option String := none

/-- get_upload_url (source lines 462-537).  recaptchaOk is the answer
of verify_recaptcha, presignOk whether generate_presigned_url
succeeds. -/
def get_upload_url (recaptchaOk presignOk : Bool) (req : UploadSlotReq) : HttpResp :=
  let email := strStrip (req.email.getD "")
  let video_type := strLower (strStrip (req.videoType.getD ""))
  let consent := req.consent.getD true
  let filename := strStrip (req.filename.getD "")
  let content_type := strLower (strStrip (req.contentType.getD ""))
  let recaptcha_token := strStrip (req.recaptchaToken.getD "")
  -- source line 494: if not email or not video_type or not consent
  --                  or not filename or not content_type
  if email = "" ∨ video_type = "" ∨ consent = false ∨ filename = "" ∨ content_type = "" then
    .badRequest "Missing required fields"
  -- source line 497
  else if content_type ∉ ALLOWED_CONTENT_TYPES then
    .badRequest "Unsupported content type"
  -- source line 500
  else if recaptcha_token ≠ "" ∧ !recaptchaOk then
    .badRequest "Captcha failed"
  else if presignOk then
    .ok "success"
  else
    .serverError

/-- Request body of POST /confirm-upload (source lines 544-558). -/
structure ConfirmReq where
  temp_key : Option String := none
  filename : Option String := none
  email : Option String := none
  name : Option String := none
  igHandle : Option String := none
  videoType : Option String := none
  comments : Option String := none
  entryId : Option String := none
  contentType : Option String := none
  callbackUrl : Option String := none

/-- confirm_upload (source lines 542-595).  The first component is the
synchronous HTTP response; the second is none when no moderation
thread was spawned, and some of the spawned moderate_video run (under
the given environment and fuel) otherwise.  The background thread is
daemonic and its result never feeds back into the response. -/
def confirm_upload (env : Env) (fuel : Nat) (nowIso : String) (req : ConfirmReq) :
    HttpResp × Option (Option RunResult) :=
  let temp_key := strStrip (req.temp_key.getD "")
  let filename := strStrip (req.filename.getD "")
  let email := strStrip (req.email.getD "")
  let name := strStrip (req.name.getD "")
  let ig_handle := strStrip (req.igHandle.getD "")
  let video_type := strLower (strStrip (req.videoType.getD ""))
  let comments := strStrip (req.comments.getD "")
  let entry_id := strStrip (req.entryId.getD "")
  let content_type := strLower (strStrip (req.contentType.getD ""))
  let callback_url := strStrip (req.callbackUrl.getD "")
  -- source line 571: if not all([temp_key, filename, email, video_type, content_type])
  if temp_key = "" ∨ filename = "" ∨ email = "" ∨ video_type = "" ∨ content_type = "" then
    (.badRequest "Missing required fields", none)
  -- source line 574
  else if content_type ∉ ALLOWED_CONTENT_TYPES then
    (.badRequest "Unsupported content type", none)
  else
    let metadata := sanitize_metadata
      [("email", some email), ("name", some name), ("ig_handle", some ig_handle),
       ("videotype", some video_type), ("comments", some comments),
       ("entry_id", some entry_id), ("filename", some filename),
       ("confirmed_at", some nowIso)]
    (.ok "Moderation started",
     some (moderate_video env temp_key filename metadata content_type callback_url fuel))

/-! ### Concrete environments used by witnesses and counterexamples -/

/-- A fully successful run: object staged, download fine, 60 second
duration, first poll returns SUCCEEDED with no labels, copy and
deletes succeed, SES delivers. -/
def cleanEnv : Env :=
  { tempExists := true, downloadOk := true, duration := some 60, rekStartOk := true,
    poll := fun _ => .ok "SUCCEEDED" [], copyOk := true,
    deleteOk := fun _ => true, sesOk := fun _ => true }

/-- Like cleanEnv but the video is 5 seconds long and every
delete_object call fails. -/
def delFailEnv : Env :=
  { cleanEnv with duration := some 5, deleteOk := fun _ => false }

/-- Like cleanEnv but every poll answer reports IN_PROGRESS. -/
def hangEnv : Env :=
  { cleanEnv with poll := fun _ => .ok "IN_PROGRESS" [] }

/-- Like cleanEnv but the moderation job reports FAILED. -/
def failPollEnv : Env :=
  { cleanEnv with poll := fun _ => .ok "FAILED" [] }

/-- Like cleanEnv but the video is 300 seconds long. -/
def longVideoEnv : Env :=
  { cleanEnv with duration := some 300 }

/-! ### Helper lemmas about the polling loop -/

/-- A poll answer on which the loop breaks: an exception, or a response
whose status is terminal. -/
def breaksAt (poll : Nat → PollResp) (n : Nat) : Prop :=
  poll n = .exn ∨ ∃ s l, poll n = .ok s l ∧ terminalStatus s = true

theorem pollLoop_inProgress :
    ∀ (fuel i : Nat) (st : String) (ls : List (String × ℚ)),
      pollLoop (fun _ => .ok "IN_PROGRESS" []) st ls i fuel = none := by
  intro fuel
  induction fuel with
  | zero => intro i st ls; rfl
  | succ n ih =>
    intro i st ls
    simp only [pollLoop]
    rw [if_neg (by decide)]
    exact ih (i + 1) "IN_PROGRESS" []

theorem pollLoop_isSome (poll : Nat → PollResp) :
    ∀ (n i : Nat) (st : String) (ls : List (String × ℚ)), breaksAt poll (i + n) →
      ∃ out, pollLoop poll st ls i (n + 1) = some out := by
  intro n
  induction n with
  | zero =>
    intro i st ls hb
    rw [Nat.add_zero] at hb
    rcases hb with hb | ⟨s, l, hb, hs⟩
    · exact ⟨(st, ls), by simp [pollLoop, hb]⟩
    · exact ⟨(s, l), by simp [pollLoop, hb, hs]⟩
  | succ n ih =>
    intro i st ls hb
    simp only [pollLoop]
    cases hp : poll i with
    | exn => exact ⟨(st, ls), rfl⟩
    | ok s l =>
      dsimp only
      by_cases hs : terminalStatus s
      · exact ⟨(s, l), by rw [if_pos hs]⟩
      · rw [if_neg hs]
        refine ih (i + 1) s l ?_
        have heq : i + 1 + n = i + (n + 1) := by omega
        rw [heq]
        exact hb

/-! ### Helper lemmas about moderate_video -/

theorem notify_once (env : Env) (tk fn : String) (md : List (String × String))
    (ct cb : String) (fuel : Nat) (r : RunResult)
    (hrun : moderate_video env tk fn md ct cb fuel = some r) : r.notifyCalls = 1 := by
  simp only [moderate_video] at hrun
  repeat' split at hrun
  all_goals (cases hrun <;> rfl)

theorem outcome_ses_independent (env : Env) (f : Nat → Bool) (tk fn : String)
    (md : List (String × String)) (ct cb : String) (fuel : Nat) :
    (moderate_video (env.withSes f) tk fn md ct cb fuel).map RunResult.outcome
      = (moderate_video env tk fn md ct cb fuel).map RunResult.outcome := by
  simp only [moderate_video, withSes_tempExists, withSes_downloadOk, withSes_duration,
    withSes_rekStartOk, withSes_poll, withSes_copyOk, withSes_deleteOk, withSes_sesOk]
  repeat' split
  all_goals rfl

theorem accepted_of_clean (env : Env) (tk fn : String) (md : List (String × String))
    (ct cb : String) (fuel : Nat) (r : RunResult)
    (hrun : moderate_video env tk fn md ct cb fuel = some r)
    (hte : env.tempExists = true) (hdl : env.downloadOk = true)
    (hdur : ∃ d, env.duration = some d ∧ ¬(d < MIN_SECONDS ∨ d > MAX_SECONDS))
    (hrk : env.rekStartOk = true)
    (hpoll : pollLoop env.poll "IN_PROGRESS" [] 0 fuel = some ("SUCCEEDED", []))
    (hcp : env.copyOk = true) (hdk : env.deleteOk 0 = true) :
    r.outcome = .accepted := by
  rcases hdur with ⟨d, hd, hrange⟩
  have hlo : ¬ d < MIN_SECONDS := fun h => hrange (Or.inl h)
  have hhi : ¬ d > MAX_SECONDS := fun h => hrange (Or.inr h)
  clear hrange
  simp only [moderate_video, hpoll] at hrun
  repeat' split at hrun
  all_goals (try cases hrun)
  all_goals (try simp_all)
  all_goals (rename_i hcontra; rcases hcontra with h | h <;> linarith)

/-- The result of a fully successful run of cleanEnv on metadata
carrying a submitter email: published, staging gone, one notify call
delivering two emails (submitter and internal). -/
def cleanRun : RunResult :=
  { outcome := .accepted, reason := "", rekStartCalls := 1, tempPresent := false,
    permPublished := true, tmpFileCreated := true, tmpRemoveCalled := true,
    deleteCalls := 1, notifyCalls := 1, callbackCalls := 1, deliveries := 2 }

/-! ### Claim C1 -/

/-- C1 counterexample: with a 5 second video and failing delete_object
calls, moderate_video runs to completion and reaches the Rejected
outcome, yet the staging object is still present afterwards: staging
cleanup is best effort, so the claimed unconditional absence of the
staging copy after the run is false. -/
theorem C1_staging_left_behind :
    (moderate_video delFailEnv "k" "clip.mp4" [("email", "a@b.c")] "video/mp4" "" 1).map
      (fun r => (r.outcome, r.tempPresent)) = some (.rejected, true) := by decide

/-- C1 (amended): on every completed moderate_video run in which the
best-effort delete_object calls succeed, exactly one terminal outcome
is reached -- the object sits in the public bucket exactly when the
outcome is accepted, every other completion is a reject (the error
statuses playing the SourceUnavailable reject role) -- and the staging
copy is absent afterwards. -/
theorem C1_resolved_once (env : Env) (tk fn : String) (md : List (String × String))
    (ct cb : String) (fuel : Nat) (r : RunResult)
    (hrun : moderate_video env tk fn md ct cb fuel = some r)
    (hdel : ∀ k, env.deleteOk k = true) :
    (r.outcome = .accepted ↔ r.permPublished = true) ∧ r.tempPresent = false := by
  have h0 := hdel 0
  have h1 := hdel 1
  simp only [moderate_video] at hrun
  repeat' split at hrun
  all_goals (try cases hrun)
  all_goals simp_all

/-- C1 witness: the amended statement applied to the fully clean run. -/
theorem C1_resolved_once_witness :
    (cleanRun.outcome = .accepted ↔ cleanRun.permPublished = true)
    ∧ cleanRun.tempPresent = false :=
  C1_resolved_once cleanEnv "k" "clip.mp4" [("email", "a@b.c")] "video/mp4" "" 1 cleanRun
    (by decide) (fun _ => rfl)

/-! ### Claim C2 -/

/-- A /get-upload-url request with every required field present except
consent, which is absent from the JSON body. -/
def consentAbsentReq : UploadSlotReq :=
  { email := some "a@b.c", videoType := some "music",
    filename := some "clip.mp4", contentType := some "video/mp4" }

/-- C2: the handler does return 400 for a missing submitter email, a
missing category, an explicit consent refusal and a disallowed content
type, but a request whose consent field is simply absent succeeds:
data.get("consent", True) defaults the missing flag to true even
though the handler docstring marks consent as required.  The last
conjunct evaluates the handler at the failing input. -/
theorem C2_consent_not_required :
    get_upload_url true true { consentAbsentReq with email := none }
        = .badRequest "Missing required fields"
    ∧ get_upload_url true true { consentAbsentReq with videoType := none }
        = .badRequest "Missing required fields"
    ∧ get_upload_url true true { consentAbsentReq with consent := some false }
        = .badRequest "Missing required fields"
    ∧ get_upload_url true true { consentAbsentReq with contentType := some "text/plain" }
        = .badRequest "Unsupported content type"
    ∧ get_upload_url true true consentAbsentReq = .ok "success" := by decide

/-! ### Claim C3 -/

/-- C3 counterexample: two successive uploads of byte-identical content
(hence identical duration and identical clean moderation answers)
staged at keys k1 and k2.  The first run is published -- but so is the
second: it is not rejected with DuplicateContent, because the code
keeps no fingerprint ledger at all. -/
theorem C3_second_duplicate_published :
    (moderate_video cleanEnv "k1" "clip.mp4" [("email", "a@b.c")] "video/mp4" "" 1).map
      RunResult.outcome = some .accepted
    ∧ (moderate_video cleanEnv "k2" "clip.mp4" [("email", "a@b.c")] "video/mp4" "" 1).map
      RunResult.outcome = some .accepted := by decide

/-- C3 (amended): moderate_video computes no content fingerprint and
consults no duplicate ledger, so any two byte-identical uploads that
are staged, downloadable, in duration range and moderated clean are
both published; in particular the second run is never rejected as a
duplicate and no ledger entry exists to be created at all. -/
theorem C3_no_duplicate_ledger (env : Env) (tk1 tk2 fn : String) (md : List (String × String))
    (ct cb : String) (fuel : Nat) (r1 r2 : RunResult)
    (h1 : moderate_video env tk1 fn md ct cb fuel = some r1)
    (h2 : moderate_video env tk2 fn md ct cb fuel = some r2)
    (hte : env.tempExists = true) (hdl : env.downloadOk = true)
    (hdur : ∃ d, env.duration = some d ∧ ¬(d < MIN_SECONDS ∨ d > MAX_SECONDS))
    (hrk : env.rekStartOk = true)
    (hpoll : pollLoop env.poll "IN_PROGRESS" [] 0 fuel = some ("SUCCEEDED", []))
    (hcp : env.copyOk = true) (hdk : env.deleteOk 0 = true) :
    r1.outcome = .accepted ∧ r2.outcome = .accepted :=
  ⟨accepted_of_clean env tk1 fn md ct cb fuel r1 h1 hte hdl hdur hrk hpoll hcp hdk,
   accepted_of_clean env tk2 fn md ct cb fuel r2 h2 hte hdl hdur hrk hpoll hcp hdk⟩

/-- C3 witness: the amended statement applied to two clean runs. -/
theorem C3_no_duplicate_ledger_witness :
    cleanRun.outcome = .accepted ∧ cleanRun.outcome = .accepted :=
  C3_no_duplicate_ledger cleanEnv "k1" "k2" "clip.mp4" [("email", "a@b.c")] "video/mp4" "" 1
    cleanRun cleanRun (by decide) (by decide) rfl rfl ⟨60, rfl, by decide⟩ rfl (by decide)
    rfl rfl

/-! ### Claim C4 -/

theorem moderate_video_pending (env : Env) (tk fn : String) (md : List (String × String))
    (ct cb : String) (fuel : Nat)
    (hte : env.tempExists = true) (hdl : env.downloadOk = true)
    (hdur : ∃ d, env.duration = some d ∧ ¬(d < MIN_SECONDS ∨ d > MAX_SECONDS))
    (hrk : env.rekStartOk = true)
    (hpoll : pollLoop env.poll "IN_PROGRESS" [] 0 fuel = none) :
    moderate_video env tk fn md ct cb fuel = none := by
  rcases hdur with ⟨d, hd, hrange⟩
  simp [moderate_video, hte, hdl, hd, hrange, hrk, hpoll]

/-- C4 counterexample: a moderation job that keeps reporting
IN_PROGRESS is polled forever -- there is no maximum wait budget, and
no number of polling iterations completes the run, so the object is
left pending indefinitely instead of being rejected with a timeout. -/
theorem C4_no_wait_budget :
    ¬ ∃ fuel r,
      moderate_video hangEnv "k" "clip.mp4" [("email", "a@b.c")] "video/mp4" "" fuel
        = some r := by
  rintro ⟨fuel, r, h⟩
  rw [moderate_video_pending hangEnv "k" "clip.mp4" [("email", "a@b.c")] "video/mp4" "" fuel
    rfl rfl ⟨60, rfl, by decide⟩ rfl (pollLoop_inProgress fuel 0 "IN_PROGRESS" [])] at h
  exact Option.noConfusion h

/-- C4 (amended): the polling loop sleeps on a fixed interval but has
no wait budget; it terminates precisely when some poll attempt raises
or returns a terminal status (SUCCEEDED or FAILED), in which case
moderate_video runs to completion; with an always-pending job it polls
forever. -/
theorem C4_break_terminates (env : Env) (tk fn : String) (md : List (String × String))
    (ct cb : String) (n : Nat) (hb : breaksAt env.poll n) :
    ∃ r, moderate_video env tk fn md ct cb (n + 1) = some r := by
  obtain ⟨te, dl, du, rk, pl, cp, dk, ses⟩ := env
  simp only [moderate_video]
  cases te
  · exact ⟨_, rfl⟩
  cases dl
  · exact ⟨_, rfl⟩
  cases du with
  | none => exact ⟨_, rfl⟩
  | some d =>
    dsimp only
    by_cases hd : d < MIN_SECONDS ∨ d > MAX_SECONDS
    · rw [if_pos hd]
      exact ⟨_, rfl⟩
    rw [if_neg hd]
    cases rk
    · exact ⟨_, rfl⟩
    obtain ⟨⟨st, ls⟩, hout⟩ :=
      pollLoop_isSome pl n 0 "IN_PROGRESS" [] (by simpa using hb)
    rw [hout]
    dsimp only
    by_cases hst : st ≠ "SUCCEEDED"
    · rw [if_pos hst]
      exact ⟨_, rfl⟩
    rw [if_neg hst]
    by_cases hls : ls ≠ []
    · rw [if_pos hls]
      exact ⟨_, rfl⟩
    rw [if_neg hls]
    cases cp
    · exact ⟨_, rfl⟩
    cases hdk : dk 0
    · exact ⟨_, rfl⟩
    · exact ⟨_, rfl⟩

/-- C4 witness: a first poll reporting FAILED makes the run complete. -/
theorem C4_break_terminates_witness :
    ∃ r, moderate_video failPollEnv "k" "clip.mp4" [("email", "a@b.c")] "video/mp4" "" 1
      = some r :=
  C4_break_terminates failPollEnv "k" "clip.mp4" [("email", "a@b.c")] "video/mp4" "" 0
    (Or.inr ⟨"FAILED", [], rfl, by decide⟩)

/-! ### Claim C5 -/

/-- C5: once a run reaches the moderation stage, the object lands in
the public bucket only when the polling loop ends with
status SUCCEEDED and an empty label list; any non-empty label list,
and any loop exit whose status is not SUCCEEDED (FAILED, or a poll
exception leaving a pending status), yields the rejected outcome and
never a publish. -/
theorem C5_publish_only_clean (env : Env) (tk fn : String) (md : List (String × String))
    (ct cb : String) (fuel : Nat) (st : String) (ls : List (String × ℚ)) (r : RunResult)
    (hrun : moderate_video env tk fn md ct cb fuel = some r)
    (hte : env.tempExists = true) (hdl : env.downloadOk = true)
    (hdur : ∃ d, env.duration = some d ∧ ¬(d < MIN_SECONDS ∨ d > MAX_SECONDS))
    (hrk : env.rekStartOk = true)
    (hpoll : pollLoop env.poll "IN_PROGRESS" [] 0 fuel = some (st, ls)) :
    (r.permPublished = true → st = "SUCCEEDED" ∧ ls = [])
    ∧ (r.outcome = .accepted → st = "SUCCEEDED" ∧ ls = [])
    ∧ ((st ≠ "SUCCEEDED" ∨ ls ≠ []) → r.outcome = .rejected) := by
  rcases hdur with ⟨d, hd, hrange⟩
  have hlo : ¬ d < MIN_SECONDS := fun h => hrange (Or.inl h)
  have hhi : ¬ d > MAX_SECONDS := fun h => hrange (Or.inr h)
  clear hrange
  simp only [moderate_video, hpoll] at hrun
  repeat' split at hrun
  all_goals (try cases hrun)
  all_goals simp_all

/-- The run result of failPollEnv: the job reported FAILED, so the
object was rejected with the staging copy deleted. -/
def failRun : RunResult :=
  { outcome := .rejected, reason := "rekognition_failed", rekStartCalls := 1,
    tempPresent := false, permPublished := false, tmpFileCreated := true,
    tmpRemoveCalled := true, deleteCalls := 1, notifyCalls := 1, callbackCalls := 1,
    deliveries := 2 }

/-- C5 witness: a FAILED job with an empty label list is rejected. -/
theorem C5_publish_only_clean_witness : failRun.outcome = .rejected :=
  (C5_publish_only_clean failPollEnv "k" "clip.mp4" [("email", "a@b.c")] "video/mp4" "" 1
    "FAILED" [] failRun (by decide) rfl rfl ⟨60, rfl, by decide⟩ rfl (by decide)).2.2
    (Or.inl (by decide))

/-! ### Claim C6 -/

/-- C6: every completed moderate_video run makes exactly one
notify_submitter_and_internal call (hence at most one on every reject
path and on the publish path), and the SES delivery answers never
influence the terminal outcome: notification failures are swallowed
and cannot reverse a decision. -/
theorem C6_single_swallowed_notification (env : Env) (f : Nat → Bool) (tk fn : String)
    (md : List (String × String)) (ct cb : String) (fuel : Nat) :
    ((moderate_video (env.withSes f) tk fn md ct cb fuel).map RunResult.outcome
      = (moderate_video env tk fn md ct cb fuel).map RunResult.outcome)
    ∧ ∀ r, moderate_video env tk fn md ct cb fuel = some r → r.notifyCalls = 1 :=
  ⟨outcome_ses_independent env f tk fn md ct cb fuel,
   fun r h => notify_once env tk fn md ct cb fuel r h⟩

/-- C6 witness: with every SES send failing the clean run still maps to
the accepted outcome, and the clean run notifies exactly once. -/
theorem C6_single_swallowed_notification_witness :
    ((moderate_video (cleanEnv.withSes fun _ => false) "k" "clip.mp4" [("email", "a@b.c")]
        "video/mp4" "" 1).map RunResult.outcome
      = (moderate_video cleanEnv "k" "clip.mp4" [("email", "a@b.c")] "video/mp4" "" 1).map
        RunResult.outcome)
    ∧ cleanRun.notifyCalls = 1 :=
  ⟨(C6_single_swallowed_notification cleanEnv (fun _ => false) "k" "clip.mp4"
      [("email", "a@b.c")] "video/mp4" "" 1).1,
   (C6_single_swallowed_notification cleanEnv (fun _ => false) "k" "clip.mp4"
      [("email", "a@b.c")] "video/mp4" "" 1).2 cleanRun (by decide)⟩

/-! ### Claim C7 -/

/-- C7: confirm_upload answers 400 without spawning any moderation work
when validation fails; when validation passes it spawns the moderation
thread and answers the started-style success message; and the
synchronous response is independent of the moderation environment,
its fuel and the clock, so no pipeline error ever reaches the
fire-and-forget caller. -/
theorem C7_fire_and_forget (env env2 : Env) (fuel fuel2 : Nat) (now now2 : String)
    (req : ConfirmReq) :
    ((confirm_upload env fuel now req).2 = none →
      ∃ m, (confirm_upload env fuel now req).1 = .badRequest m)
    ∧ ((confirm_upload env fuel now req).2 ≠ none →
      (confirm_upload env fuel now req).1 = .ok "Moderation started")
    ∧ (confirm_upload env fuel now req).1 = (confirm_upload env2 fuel2 now2 req).1 := by
  simp only [confirm_upload]
  repeat' split
  · exact ⟨fun _ => ⟨"Missing required fields", rfl⟩, fun h => absurd rfl h, rfl⟩
  · exact ⟨fun _ => ⟨"Unsupported content type", rfl⟩, fun h => absurd rfl h, rfl⟩
  · exact ⟨fun h => Option.noConfusion h, fun _ => rfl, rfl⟩

/-- A valid /confirm-upload request. -/
def goodConfirmReq : ConfirmReq :=
  { temp_key := some "uploads/2026/01/01/abc_clip.mp4", filename := some "clip.mp4",
    email := some "a@b.c", videoType := some "music", contentType := some "video/mp4" }

/-- C7 witness: a valid request gets the started response. -/
theorem C7_fire_and_forget_witness :
    (confirm_upload cleanEnv 1 "2026-01-01T00:00:00" goodConfirmReq).1
      = .ok "Moderation started" :=
  (C7_fire_and_forget cleanEnv cleanEnv 1 1 "2026-01-01T00:00:00" "2026-01-01T00:00:00"
    goodConfirmReq).2.1 (by decide)

/-! ### Claim C8 -/

/-- C8: every completed moderate_video run that materialized the local
/tmp copy (the download succeeded) invokes os.remove on it before
returning, on the duration-reject, moderation-start-failure, polling,
reject and publish paths alike. -/
theorem C8_tmp_file_removed (env : Env) (tk fn : String) (md : List (String × String))
    (ct cb : String) (fuel : Nat) (r : RunResult)
    (hrun : moderate_video env tk fn md ct cb fuel = some r)
    (hcreated : r.tmpFileCreated = true) : r.tmpRemoveCalled = true := by
  simp only [moderate_video] at hrun
  repeat' split at hrun
  all_goals (try cases hrun)
  all_goals simp_all

/-- C8 witness: the clean run created the /tmp copy and removed it. -/
theorem C8_tmp_file_removed_witness : cleanRun.tmpRemoveCalled = true :=
  C8_tmp_file_removed cleanEnv "k" "clip.mp4" [("email", "a@b.c")] "video/mp4" "" 1 cleanRun
    (by decide) rfl

/-! ### Claim C10 -/

/-- C10: whenever the staged object exists, the download succeeds, and
the probed duration is unmeasurable or strictly below 15 seconds or
strictly above 240 seconds, the run is rejected with no
start_content_moderation call ever made, exactly one delete_object
call on the staging copy (which removes it whenever the delete
succeeds), exactly one notification, and nothing published. -/
theorem C10_duration_gate (env : Env) (tk fn : String) (md : List (String × String))
    (ct cb : String) (fuel : Nat) (r : RunResult)
    (hrun : moderate_video env tk fn md ct cb fuel = some r)
    (hte : env.tempExists = true) (hdl : env.downloadOk = true)
    (hdur : env.duration = none
      ∨ ∃ d, env.duration = some d ∧ (d < MIN_SECONDS ∨ d > MAX_SECONDS)) :
    r.outcome = .rejected ∧ r.rekStartCalls = 0 ∧ r.permPublished = false
    ∧ r.deleteCalls = 1 ∧ r.notifyCalls = 1
    ∧ (env.deleteOk 0 = true → r.tempPresent = false) := by
  simp only [moderate_video] at hrun
  rcases hdur with hd | ⟨d, hd, hrange⟩ <;>
    (repeat' split at hrun) <;>
    (try cases hrun) <;>
    simp_all

/-- The run result of longVideoEnv: a 300 second video rejected by the
duration gate. -/
def longRun : RunResult :=
  { outcome := .rejected, reason := "duration_out_of_range", rekStartCalls := 0,
    tempPresent := false, permPublished := false, tmpFileCreated := true,
    tmpRemoveCalled := true, deleteCalls := 1, notifyCalls := 1, callbackCalls := 1,
    deliveries := 2 }

/-- C10 witness: a 300 second video is rejected before any moderation
job is submitted, with the staging copy deleted. -/
theorem C10_duration_gate_witness :
    longRun.outcome = .rejected ∧ longRun.rekStartCalls = 0 ∧ longRun.permPublished = false
    ∧ longRun.deleteCalls = 1 ∧ longRun.notifyCalls = 1 ∧ longRun.tempPresent = false := by
  have h := C10_duration_gate longVideoEnv "k" "clip.mp4" [("email", "a@b.c")] "video/mp4" "" 1
    longRun (by decide) rfl rfl (Or.inr ⟨300, rfl, by decide⟩)
  exact ⟨h.1, h.2.1, h.2.2.1, h.2.2.2.1, h.2.2.2.2.1, h.2.2.2.2.2 rfl⟩

/-! ### Claim C9 -/

theorem sanitize_foldl_mem :
    ∀ (meta : List (String × Option String)) (acc : List (String × String))
      (e : String × String),
      e ∈ meta.foldl
        (fun clean kv =>
          match kv.2 with
          | none => clean
          | some v => dictInsert clean (strLower (strTake kv.1 32)) (strTake v 1024)) acc →
      e ∈ acc ∨ ∃ k₀ v₀, (k₀, some v₀) ∈ meta
        ∧ e = (strLower (strTake k₀ 32), strTake v₀ 1024) := by
  intro meta
  induction meta with
  | nil =>
    intro acc e h
    exact Or.inl h
  | cons kv rest ih =>
    intro acc e h
    rw [List.foldl_cons] at h
    rcases kv with ⟨k, ov⟩
    cases ov with
    | none =>
      rcases ih _ e h with h | ⟨k₀, v₀, hm, he⟩
      · exact Or.inl h
      · exact Or.inr ⟨k₀, v₀, List.mem_cons_of_mem _ hm, he⟩
    | some v =>
      rcases ih _ e h with h | ⟨k₀, v₀, hm, he⟩
      · rcases mem_dictInsert h with h | h
        · exact Or.inl h
        · exact Or.inr ⟨k, v, List.mem_cons_self _ _, h⟩
      · exact Or.inr ⟨k₀, v₀, List.mem_cons_of_mem _ hm, he⟩

theorem sanitize_foldl_keys :
    ∀ (meta : List (String × Option String)) (acc : List (String × String)) (k' : String),
      (∃ w, (k', w) ∈ acc) →
      ∃ w, (k', w) ∈ meta.foldl
        (fun clean kv =>
          match kv.2 with
          | none => clean
          | some v => dictInsert clean (strLower (strTake kv.1 32)) (strTake v 1024)) acc := by
  intro meta
  induction meta with
  | nil =>
    intro acc k' h
    exact h
  | cons kv rest ih =>
    intro acc k' h
    rw [List.foldl_cons]
    rcases kv with ⟨k, ov⟩
    cases ov with
    | none => exact ih _ _ h
    | some v => exact ih _ _ (dictInsert_mem_keep h _ _)

theorem sanitize_key_present :
    ∀ (meta : List (String × Option String)) (acc : List (String × String)) (k₀ v₀ : String),
      (k₀, some v₀) ∈ meta →
      ∃ w, (strLower (strTake k₀ 32), w) ∈ meta.foldl
        (fun clean kv =>
          match kv.2 with
          | none => clean
          | some v => dictInsert clean (strLower (strTake kv.1 32)) (strTake v 1024)) acc := by
  intro meta
  induction meta with
  | nil =>
    intro acc k₀ v₀ h
    cases h
  | cons kv rest ih =>
    intro acc k₀ v₀ h
    rw [List.foldl_cons]
    rcases List.mem_cons.mp h with h | h
    · cases h.symm
      exact sanitize_foldl_keys rest _ _ (dictInsert_mem_self _ _ _)
    · exact ih _ _ _ h

/-- C9: sanitize_metadata never rejects an entry for being too long:
every stored pair is the lowercased 32-character truncation of an
input key together with the 1024-character truncation of its input
value (so both caps hold), and every input entry with a present value
-- an over-long comment included -- still has its sanitized key stored
in the result. -/
theorem C9_sanitize_truncates (meta : List (String × Option String)) :
    (∀ k v, (k, v) ∈ sanitize_metadata meta →
      k.length ≤ 32 ∧ v.length ≤ 1024
      ∧ ∃ k₀ v₀, (k₀, some v₀) ∈ meta
        ∧ k = strLower (strTake k₀ 32) ∧ v = strTake v₀ 1024)
    ∧ ∀ k₀ v₀, (k₀, some v₀) ∈ meta →
      ∃ v, (strLower (strTake k₀ 32), v) ∈ sanitize_metadata meta := by
  constructor
  · intro k v h
    rcases sanitize_foldl_mem meta [] (k, v) h with h | ⟨k₀, v₀, hm, he⟩
    · cases h
    · rcases Prod.mk.injEq .. ▸ he with ⟨hk, hv⟩
      subst hk
      subst hv
      refine ⟨?_, strTake_length v₀ 1024, k₀, v₀, hm, rfl, rfl⟩
      rw [strLower_length]
      exact strTake_length k₀ 32
  · intro k₀ v₀ h
    exact sanitize_key_present meta [] k₀ v₀ h

/-- A 2000 character comment value. -/
def longComment : String := String.mk (List.replicate 2000 (Char.ofNat 97))

/-- C9 witness: a request carrying a 2000 character comment is not
rejected: the sanitized metadata still stores the comments key. -/
theorem C9_sanitize_truncates_witness :
    ∃ v, (strLower (strTake "comments" 32), v)
      ∈ sanitize_metadata [("comments", some longComment)] :=
  (C9_sanitize_truncates [("comments", some longComment)]).2 "comments" longComment
    (List.mem_singleton.mpr rfl)

end HHF

